import Mathlib

/-!
Verification of the `ObjectStores/s3_handler.py` command-line client.

The program is a thin interactive wrapper around an object-storage
backend.  We shallowly embed it as pure Lean functions:

* the backend is a state `S3State` (a list of buckets, each a name
  together with its ordered listing of `(key, content)` objects);
* the local filesystem is an association list `LocalFS` from paths to
  contents;
* every backend round-trip performed by a handler is recorded in an
  explicit trace of `Call` values, so that claims about the number and
  order of backend calls become statements about lists;
* a Python exception escaping a handler is an `Except.error`.

Each handler (`createdir`, `listdir`, `upload`, `download`, `delete`,
`deletedir`, `find`, `dispatch`) is translated statement-by-statement
from the source.  Python dynamic-typing quirks are embedded faithfully:
`listdir` may return either a list or an error string (type `Resp`), and
the call sites that iterate it, take its length, or test membership use
`respIter`, `pyLen` and `pyInResp`, which reproduce what Python does on
each of the two runtime types.
-/

namespace S3

/-- One backend round-trip, as issued through the SDK client. -/
inductive Call where
  | headBucket (bucket : String)
  | listBuckets
  | listObjects (bucket : String)
  | createBucket (bucket : String)
  | deleteBucket (bucket : String)
  | deleteObject (bucket : String) (key : String)
  | putObject (src : String) (bucket : String) (key : String)
  | getObject (bucket : String) (key : String) (dst : String)
deriving DecidableEq, Repr

/-- Backend state: the buckets, each with its ordered object listing
(`key`, `content`). -/
structure S3State where
  buckets : List (String × List (String × String))
deriving DecidableEq, Repr

/-- The local filesystem: an association list from path to file content. -/
abbrev LocalFS := List (String × String)

/-- A handler response as seen by the caller of `dispatch`: either a
message string or a list of names (what `listdir`/`find` return). -/
inductive Resp where
  | msg (s : String)
  | strs (l : List String)
deriving DecidableEq, Repr

/-- A Python exception escaping a handler: a `TypeError` from unpacking
too many positional arguments, or a backend fault re-raised by `_get`
(carrying its classification code). -/
inductive PyException where
  | typeError
  | reRaised (code : String)
deriving DecidableEq, Repr

/-- `S3Handler._error_messages`: the fixed table of user-facing error
strings.  (In Python an unknown non-empty key would raise `KeyError`;
all call sites use literal valid keys, so the fallback branch models the
falsy-`issue` case.) -/
def errorMessages (issue : String) : String :=
  if issue = "operation_not_permitted" then "Not authorized to access resource."
  else if issue = "invalid_directory_name" then "Directory name is invalid."
  else if issue = "incorrect_parameter_number" then "Incorrect number of parameters provided"
  else if issue = "not_implemented" then "Functionality not implemented yet!"
  else if issue = "bucket_name_exists" then "Directory already exists."
  else if issue = "bucket_name_empty" then "Directory name cannot be empty."
  else if issue = "non_empty_bucket" then "Directory is not empty."
  else if issue = "missing_source_file" then "Source file cannot be found."
  else if issue = "non_existent_bucket" then "Directory does not exist."
  else if issue = "non_existent_object" then "Destination File does not exist."
  else "Something was not correct with the request. Try again."

/-- Does the char list `s` start with the char list `pat`? -/
def startsWithL : List Char → List Char → Bool
  | _, [] => true
  | [], _ :: _ => false
  | a :: as, b :: bs => a == b && startsWithL as bs

/-- Does the char list `s` contain `pat` as a contiguous infix? -/
def containsL : List Char → List Char → Bool
  | [], pat => pat.isEmpty
  | s@(_ :: as), pat => startsWithL s pat || containsL as pat

/-- The Python expression `x in s` on two strings: plain substring
containment (the empty string is contained in everything). -/
def pyIn (x s : String) : Bool := containsL s.toList x.toList

/-- The Python expression `x in r` where `r` is a `listdir` result: list
membership on a list, substring containment on an error string. -/
def pyInResp (x : String) (r : Resp) : Bool :=
  match r with
  | .strs l => l.contains x
  | .msg s => pyIn x s

/-- The Python expression `len(r)` on a `listdir` result. -/
def pyLen (r : Resp) : Nat :=
  match r with
  | .strs l => l.length
  | .msg s => s.length

/-- Iterating a `listdir` result in a Python `for`/comprehension: a list
yields its elements, a string yields its one-character substrings. -/
def respIter (r : Resp) : List String :=
  match r with
  | .strs l => l
  | .msg s => s.toList.map (fun c => String.mk [c])

/-! ## Backend primitives (the boto3 client, modelled) -/

/-- The listing attached to bucket `b`, if the bucket exists. -/
def findBucket (st : S3State) (b : String) : Option (List (String × String)) :=
  (st.buckets.find? (fun p => p.1 == b)).map (fun p => p.2)

/-- Whether bucket `b` exists in the backend. -/
def bucketExists (st : S3State) (b : String) : Bool :=
  (findBucket st b).isSome

/-- The names of all buckets, in backend listing order. -/
def bucketNames (st : S3State) : List String :=
  st.buckets.map (fun p => p.1)

/-- The object keys of bucket `b`, in the backend's listing order
(empty if the bucket does not exist). -/
def objKeys (st : S3State) (b : String) : List String :=
  ((findBucket st b).getD []).map (fun p => p.1)

/-- The content of object `k` in bucket `b`, if present. -/
def get_object (st : S3State) (b k : String) : Option String :=
  (findBucket st b).bind (fun objs => ((objs.find? (fun o => o.1 == k)).map (fun o => o.2)))

/-- `list_objects` response's `Contents` field: absent (`none`) when the
bucket has no objects, exactly as the AWS response omits the key. -/
def list_objects (st : S3State) (b : String) : Option (List (String × String)) :=
  match findBucket st b with
  | none => none
  | some objs => if objs.isEmpty then none else some objs

/-- `create_bucket`: appends a fresh empty bucket to the backend. -/
def create_bucket (st : S3State) (b : String) : S3State :=
  ⟨st.buckets ++ [(b, [])]⟩

/-- `delete_bucket`: removes the bucket named `b`. -/
def delete_bucket (st : S3State) (b : String) : S3State :=
  ⟨st.buckets.filter (fun p => p.1 != b)⟩

/-- `delete_object`: removes key `k` from bucket `b`'s listing. -/
def delete_object (st : S3State) (b k : String) : S3State :=
  ⟨st.buckets.map (fun p => if p.1 == b then (p.1, p.2.filter (fun o => o.1 != k)) else p)⟩

/-- Overwrite key `k` of a listing with content `c`, or append it. -/
def setObj (objs : List (String × String)) (k c : String) : List (String × String) :=
  if objs.any (fun o => o.1 == k) then objs.map (fun o => if o.1 == k then (k, c) else o)
  else objs ++ [(k, c)]

/-- `upload_file` / put-object: store content `c` under key `k` in bucket `b`. -/
def put_object (st : S3State) (b k c : String) : S3State :=
  ⟨st.buckets.map (fun p => if p.1 == b then (p.1, setObj p.2 k c) else p)⟩

/-! ## Local filesystem primitives -/

/-- `os.path.exists` restricted to lookup: the file's content, if any. -/
def lookupFS (fs : LocalFS) (p : String) : Option String :=
  (fs.find? (fun e => e.1 == p)).map (fun e => e.2)

/-- `os.path.exists`. -/
def pathExists (fs : LocalFS) (p : String) : Bool :=
  (lookupFS fs p).isSome

/-- Remove path `p` from the filesystem. -/
def removeFS (fs : LocalFS) (p : String) : LocalFS :=
  fs.filter (fun e => e.1 != p)

/-- Write content `c` at path `p` (overwriting). -/
def writeFS (fs : LocalFS) (p c : String) : LocalFS :=
  (p, c) :: removeFS fs p

/-- `os.rename src dst`: move `src`'s content to `dst`, silently
overwriting any existing `dst` (POSIX rename).  Only called under an
`os.path.exists src` guard in the source. -/
def renameFS (fs : LocalFS) (src dst : String) : LocalFS :=
  writeFS (removeFS fs src) dst ((lookupFS fs src).getD "")

/-! ## `S3Handler._get`: the existence probe -/

/-- The outcome of a `head_bucket` SDK call: a response with an HTTP
status, or a raised fault carrying a classification code
(`e.response['Error']['Code']`, a string). -/
inductive HeadResult where
  | ok (status : Nat)
  | fault (code : String)
deriving DecidableEq, Repr

/-- The body of `S3Handler._get`, as a function of the `head_bucket`
outcome: faults coded 400/403/404 mean the bucket is absent, a fault
coded 200 is treated as present, any other fault is re-raised; a
response means present exactly when its HTTP status is 200. -/
def interpretHeadResponse : HeadResult → Except String Bool
  | .fault code =>
      if code = "400" ∨ code = "403" ∨ code = "404" then .ok false
      else if code = "200" then .ok true
      else .error code
  | .ok status => if status = 200 then .ok true else .ok false

/-- The modelled backend's `head_bucket`: status 200 when the bucket
exists, a 404-coded fault when it does not. -/
def head_bucket (st : S3State) (b : String) : HeadResult :=
  if bucketExists st b then .ok 200 else .fault "404"

/-- `S3Handler._get` against the modelled backend. -/
def S3get (st : S3State) (b : String) : Except String Bool :=
  interpretHeadResponse (head_bucket st b)

/-! ## Handlers -/

/-- `S3Handler.listdir`.  Always issues `list_buckets`; with a truthy
bucket name it checks membership and then issues `list_objects`,
returning `[]` when the response has no `Contents`. -/
def listdir (st : S3State) (bucket_name : Option String) : Resp × List Call :=
  let buckets := bucketNames st
  if (bucket_name.getD "") = "" then
    (Resp.strs buckets, [Call.listBuckets])
  else
    let bn := bucket_name.getD ""
    if bn ∈ buckets then
      match list_objects st bn with
      | none => (Resp.strs [], [Call.listBuckets, Call.listObjects bn])
      | some contents => (Resp.strs (contents.map (fun o => o.1)), [Call.listBuckets, Call.listObjects bn])
    else
      (Resp.msg (errorMessages "non_existent_bucket"), [Call.listBuckets])

/-- `S3Handler.createdir`: reject an empty name before any backend
call; probe existence; create the bucket only when absent. -/
def createdir (st : S3State) (bucket_name : String) :
    Except String (Resp × S3State × List Call) :=
  if bucket_name = "" then
    .ok (Resp.msg (errorMessages "bucket_name_empty"), st, [])
  else
    match S3get st bucket_name with
    | .error e => .error e
    | .ok true =>
        .ok (Resp.msg (errorMessages "bucket_name_exists"), st, [Call.headBucket bucket_name])
    | .ok false =>
        .ok (Resp.msg ("Directory " ++ bucket_name ++ " created."),
             create_bucket st bucket_name,
             [Call.headBucket bucket_name, Call.createBucket bucket_name])

/-- `S3Handler.upload`: require the local source file, then the bucket;
the destination key defaults to the source path when unset (or empty). -/
def upload (st : S3State) (fs : LocalFS)
    (source_file_name bucket_name : String) (dest_object_name : Option String) :
    Except String (Resp × S3State × List Call) :=
  if ¬ pathExists fs source_file_name then
    .ok (Resp.msg (errorMessages "missing_source_file"), st, [])
  else
    match S3get st bucket_name with
    | .error e => .error e
    | .ok false =>
        .ok (Resp.msg (errorMessages "non_existent_bucket"), st, [Call.headBucket bucket_name])
    | .ok true =>
        let dest := match dest_object_name with
          | none => source_file_name
          | some d => if d = "" then source_file_name else d
        let content := (lookupFS fs source_file_name).getD ""
        .ok (Resp.msg ("File " ++ source_file_name ++ " uploaded to directory " ++ bucket_name ++ "."),
             put_object st bucket_name dest content,
             [Call.headBucket bucket_name, Call.putObject source_file_name bucket_name dest])

/-- The local file name used by `download`: `source_file_name` when
given and truthy, else `dest_object_name` (the Python
`if not source_file_name: source_file_name = dest_object_name`). -/
def dlLocalName (dest_object_name : String) (source_file_name : Option String) : String :=
  match source_file_name with
  | none => dest_object_name
  | some s => if s = "" then dest_object_name else s

/-- `S3Handler.download`: probe the bucket, check the key against the
bucket's `listdir`, back up any pre-existing local file to `.bak`, then
fetch the object into the local path. -/
def download (st : S3State) (fs : LocalFS)
    (dest_object_name bucket_name : String) (source_file_name : Option String) :
    Except String (Resp × LocalFS × List Call) :=
  match S3get st bucket_name with
  | .error e => .error e
  | .ok false =>
      .ok (Resp.msg (errorMessages "non_existent_bucket"), fs, [Call.headBucket bucket_name])
  | .ok true =>
      let lres := listdir st (some bucket_name)
      if ¬ pyInResp dest_object_name lres.1 then
        .ok (Resp.msg (errorMessages "non_existent_object"), fs,
             Call.headBucket bucket_name :: lres.2)
      else
        let src := dlLocalName dest_object_name source_file_name
        let fs1 := if pathExists fs src then renameFS fs src (src ++ ".bak") else fs
        let content := (get_object st bucket_name dest_object_name).getD ""
        .ok (Resp.msg ("File " ++ dest_object_name ++ " downloaded from directory " ++ bucket_name ++ "."),
             writeFS fs1 src content,
             Call.headBucket bucket_name :: lres.2 ++ [Call.getObject bucket_name dest_object_name src])

/-- `S3Handler.delete`: probe the bucket, check the key against the
bucket's `listdir`, then delete the object. -/
def delete (st : S3State) (dest_object_name bucket_name : String) :
    Except String (Resp × S3State × List Call) :=
  match S3get st bucket_name with
  | .error e => .error e
  | .ok false =>
      .ok (Resp.msg (errorMessages "non_existent_bucket"), st, [Call.headBucket bucket_name])
  | .ok true =>
      let lres := listdir st (some bucket_name)
      if ¬ pyInResp dest_object_name lres.1 then
        .ok (Resp.msg (errorMessages "non_existent_object"), st,
             Call.headBucket bucket_name :: lres.2)
      else
        .ok (Resp.msg ("File " ++ dest_object_name ++ " deleted from directory " ++ bucket_name ++ "."),
             delete_object st bucket_name dest_object_name,
             Call.headBucket bucket_name :: lres.2 ++ [Call.deleteObject bucket_name dest_object_name])

/-- `S3Handler.deletedir`: probe the bucket, refuse when its listing is
non-empty, otherwise delete the bucket. -/
def deletedir (st : S3State) (bucket_name : String) :
    Except String (Resp × S3State × List Call) :=
  match S3get st bucket_name with
  | .error e => .error e
  | .ok false =>
      .ok (Resp.msg (errorMessages "non_existent_bucket"), st, [Call.headBucket bucket_name])
  | .ok true =>
      let lres := listdir st (some bucket_name)
      if pyLen lres.1 > 0 then
        .ok (Resp.msg (errorMessages "non_empty_bucket"), st,
             Call.headBucket bucket_name :: lres.2)
      else
        .ok (Resp.msg ("Directory " ++ bucket_name ++ " deleted."),
             delete_bucket st bucket_name,
             Call.headBucket bucket_name :: lres.2 ++ [Call.deleteBucket bucket_name])

/-- `S3Handler.find`: probe the bucket, then keep the `listdir` entries
containing the pattern as a substring, in listing order. -/
def find (st : S3State) (pattern bucket_name : String) :
    Except String (Resp × List Call) :=
  match S3get st bucket_name with
  | .error e => .error e
  | .ok false =>
      .ok (Resp.msg (errorMessages "non_existent_bucket"), [Call.headBucket bucket_name])
  | .ok true =>
      let lres := listdir st (some bucket_name)
      .ok (Resp.strs ((respIter lres.1).filter (fun obj => pyIn pattern obj)),
           Call.headBucket bucket_name :: lres.2)

/-- `S3Handler.dispatch` at the token level: `parts` is the result of
`command_string.split(" ")`.  Each branch checks the verb's minimum
token count, then forwards all trailing tokens positionally; a call
whose argument count exceeds the handler's signature raises `TypeError`
(Python `*args` unpacking), modelled as `PyException.typeError`. -/
def dispatchParts (st : S3State) (fs : LocalFS) (parts : List String) :
    Except PyException (Resp × S3State × LocalFS × List Call) :=
  let verb := parts.headD ""
  let args := parts.drop 1
  if verb = "createdir" then
    match args with
    | [] => .ok (Resp.msg (errorMessages "bucket_name_empty"), st, fs, [])
    | b :: _ =>
        match createdir st b with
        | .error e => .error (.reRaised e)
        | .ok (r, st2, calls) => .ok (r, st2, fs, calls)
  else if verb = "upload" then
    if parts.length < 3 then
      .ok (Resp.msg (errorMessages "incorrect_parameter_number"), st, fs, [])
    else
      match args with
      | [s, b] =>
          match upload st fs s b none with
          | .error e => .error (.reRaised e)
          | .ok (r, st2, calls) => .ok (r, st2, fs, calls)
      | [s, b, d] =>
          match upload st fs s b (some d) with
          | .error e => .error (.reRaised e)
          | .ok (r, st2, calls) => .ok (r, st2, fs, calls)
      | _ => .error .typeError
  else if verb = "download" then
    if parts.length < 3 then
      .ok (Resp.msg (errorMessages "incorrect_parameter_number"), st, fs, [])
    else
      match args with
      | [k, b] =>
          match download st fs k b none with
          | .error e => .error (.reRaised e)
          | .ok (r, fs2, calls) => .ok (r, st, fs2, calls)
      | [k, b, s] =>
          match download st fs k b (some s) with
          | .error e => .error (.reRaised e)
          | .ok (r, fs2, calls) => .ok (r, st, fs2, calls)
      | _ => .error .typeError
  else if verb = "delete" then
    if parts.length < 3 then
      .ok (Resp.msg (errorMessages "incorrect_parameter_number"), st, fs, [])
    else
      match args with
      | [k, b] =>
          match delete st k b with
          | .error e => .error (.reRaised e)
          | .ok (r, st2, calls) => .ok (r, st2, fs, calls)
      | _ => .error .typeError
  else if verb = "deletedir" then
    if parts.length < 2 then
      .ok (Resp.msg (errorMessages "incorrect_parameter_number"), st, fs, [])
    else
      match args with
      | [b] =>
          match deletedir st b with
          | .error e => .error (.reRaised e)
          | .ok (r, st2, calls) => .ok (r, st2, fs, calls)
      | _ => .error .typeError
  else if verb = "find" then
    if parts.length < 3 then
      .ok (Resp.msg (errorMessages "incorrect_parameter_number"), st, fs, [])
    else
      match args with
      | [p, b] =>
          match find st p b with
          | .error e => .error (.reRaised e)
          | .ok (r, calls) => .ok (r, st, fs, calls)
      | _ => .error .typeError
  else if verb = "listdir" then
    match args with
    | [] =>
        let lres := listdir st none
        .ok (lres.1, st, fs, lres.2)
    | [b] =>
        let lres := listdir st (some b)
        .ok (lres.1, st, fs, lres.2)
    | _ => .error .typeError
  else
    .ok (Resp.msg "Command not recognized.", st, fs, [])

/-- Split a char list at every space, keeping empty fields (the
behaviour of Python `str.split(" ")` and of `String.splitOn " "`). -/
def pySplitSpace : List Char → List (List Char)
  | [] => [[]]
  | c :: cs =>
      if c = ' ' then [] :: pySplitSpace cs
      else
        match pySplitSpace cs with
        | [] => [[c]]
        | g :: gs => (c :: g) :: gs

/-- Python `command_string.split(" ")`. -/
def splitSpace (s : String) : List String :=
  (pySplitSpace s.toList).map (fun cs => String.mk cs)

/-- `S3Handler.dispatch`: split the command line on single spaces and
dispatch on the tokens. -/
def dispatch (st : S3State) (fs : LocalFS) (command_string : String) :
    Except PyException (Resp × S3State × LocalFS × List Call) :=
  dispatchParts st fs (splitSpace command_string)

/-! ## Basic reduction lemmas -/

theorem S3get_eq (st : S3State) (b : String) :
    S3get st b = Except.ok (bucketExists st b) := by
  unfold S3get head_bucket interpretHeadResponse
  cases h : bucketExists st b <;> simp [h]

theorem findBucket_isSome_iff (st : S3State) (b : String) :
    bucketExists st b = true ↔ ∃ p ∈ st.buckets, p.1 = b := by
  unfold bucketExists findBucket
  cases hf : List.find? (fun p => p.1 == b) st.buckets with
  | none =>
      simp only [Option.map_none', Option.isSome_none]
      constructor
      · intro hh
        cases hh
      · rintro ⟨p, hp, hpb⟩
        have := List.find?_eq_none.mp hf p hp
        simp [hpb] at this
  | some p =>
      simp only [Option.map_some', Option.isSome_some]
      constructor
      · intro _
        exact ⟨p, List.mem_of_find?_eq_some hf, by simpa using List.find?_some hf⟩
      · intro _
        trivial

theorem mem_bucketNames (st : S3State) (b : String) :
    b ∈ bucketNames st ↔ bucketExists st b = true := by
  rw [findBucket_isSome_iff]
  unfold bucketNames
  constructor
  · intro hm
    rcases List.mem_map.mp hm with ⟨p, hp, rfl⟩
    exact ⟨p, hp, rfl⟩
  · rintro ⟨p, hp, hpb⟩
    exact List.mem_map.mpr ⟨p, hp, hpb⟩

theorem bucketExists_of_findBucket (st : S3State) (b : String)
    (objs : List (String × String)) (h : findBucket st b = some objs) :
    bucketExists st b = true := by
  unfold bucketExists
  rw [h]
  rfl

theorem listdir_of_findBucket (st : S3State) (b : String) (objs : List (String × String))
    (hb : b ≠ "") (h : findBucket st b = some objs) :
    listdir st (some b) =
      (Resp.strs (objs.map (fun o => o.1)), [Call.listBuckets, Call.listObjects b]) := by
  have hmem : b ∈ bucketNames st :=
    (mem_bucketNames st b).mpr (bucketExists_of_findBucket st b objs h)
  unfold listdir list_objects
  simp only [Option.getD_some, h]
  cases objs with
  | nil => simp [hb, hmem]
  | cons o os => simp [hb, hmem]

theorem listdir_calls (st : S3State) (ob : Option String) :
    (listdir st ob).2 = [Call.listBuckets] ∨
    (listdir st ob).2 = [Call.listBuckets, Call.listObjects (ob.getD "")] := by
  unfold listdir
  by_cases h : (ob.getD "") = ""
  · simp [h]
  · by_cases hm : (ob.getD "") ∈ bucketNames st
    · cases hlo : list_objects st (ob.getD "") <;> simp [h, hm, hlo]
    · simp [h, hm]

theorem bucketExists_delete_bucket (st : S3State) (b : String) :
    bucketExists (delete_bucket st b) b = false := by
  cases hbe : bucketExists (delete_bucket st b) b with
  | false => rfl
  | true =>
      rcases (findBucket_isSome_iff _ _).mp hbe with ⟨p, hp, hpb⟩
      simp only [delete_bucket] at hp
      have h2 := (List.mem_filter.mp hp).2
      rw [hpb] at h2
      simp at h2

theorem bucketExists_create_bucket (st : S3State) (b : String) :
    bucketExists (create_bucket st b) b = true :=
  (findBucket_isSome_iff _ _).mpr ⟨(b, []), by simp [create_bucket], rfl⟩

/-! ## Local filesystem lemmas -/

theorem lookupFS_writeFS_self (fs : LocalFS) (p c : String) :
    lookupFS (writeFS fs p c) p = some c := by
  simp [lookupFS, writeFS]

theorem lookupFS_removeFS_ne (fs : LocalFS) (p q : String) (h : q ≠ p) :
    lookupFS (removeFS fs p) q = lookupFS fs q := by
  unfold lookupFS removeFS
  induction fs with
  | nil => rfl
  | cons e es ih =>
      rw [List.filter_cons]
      by_cases he : e.1 = p
      · rw [if_neg (by simp [he]),
            @List.find?_cons_of_neg _ (fun x => x.1 == q) e es (by simp [he, Ne.symm h])]
        exact ih
      · rw [if_pos (by simp [he])]
        by_cases heq : e.1 = q
        · rw [@List.find?_cons_of_pos _ (fun x => x.1 == q) e
                (List.filter (fun x => x.1 != p) es) (by simp [heq]),
              @List.find?_cons_of_pos _ (fun x => x.1 == q) e es (by simp [heq])]
        · rw [@List.find?_cons_of_neg _ (fun x => x.1 == q) e
                (List.filter (fun x => x.1 != p) es) (by simp [heq]),
              @List.find?_cons_of_neg _ (fun x => x.1 == q) e es (by simp [heq])]
          exact ih

theorem lookupFS_writeFS_ne (fs : LocalFS) (p c q : String) (h : q ≠ p) :
    lookupFS (writeFS fs p c) q = lookupFS fs q := by
  unfold writeFS lookupFS
  rw [@List.find?_cons_of_neg _ (fun x => x.1 == q) (p, c) (removeFS fs p)
        (by simp [Ne.symm h])]
  exact lookupFS_removeFS_ne fs p q h

theorem append_bak_ne (s : String) : s ++ ".bak" ≠ s := by
  intro h
  have hl := congrArg String.length h
  rw [String.length_append] at hl
  have h4 : (".bak" : String).length = 4 := rfl
  rw [h4] at hl
  omega

/-! ## Download characterization -/

theorem download_not_exists (st : S3State) (fs : LocalFS) (k b : String) (src : Option String)
    (hex : bucketExists st b = false) :
    download st fs k b src =
      Except.ok (Resp.msg (errorMessages "non_existent_bucket"), fs, [Call.headBucket b]) := by
  simp only [download, S3get_eq, hex]

theorem download_no_object (st : S3State) (fs : LocalFS) (k b : String) (src : Option String)
    (hex : bucketExists st b = true)
    (hm : pyInResp k (listdir st (some b)).1 = false) :
    download st fs k b src =
      Except.ok (Resp.msg (errorMessages "non_existent_object"), fs,
        Call.headBucket b :: (listdir st (some b)).2) := by
  simp only [download, S3get_eq, hex, hm]
  simp

theorem download_success (st : S3State) (fs : LocalFS) (k b : String) (src : Option String)
    (hex : bucketExists st b = true)
    (hm : pyInResp k (listdir st (some b)).1 = true) :
    download st fs k b src =
      Except.ok (Resp.msg ("File " ++ k ++ " downloaded from directory " ++ b ++ "."),
        writeFS
          (if pathExists fs (dlLocalName k src) then
            renameFS fs (dlLocalName k src) (dlLocalName k src ++ ".bak")
          else fs)
          (dlLocalName k src) ((get_object st b k).getD ""),
        Call.headBucket b :: (listdir st (some b)).2 ++
          [Call.getObject b k (dlLocalName k src)]) := by
  simp only [download, S3get_eq, hex, hm]
  simp

theorem lookupFS_renameFS_dst (fs : LocalFS) (src dst : String) :
    lookupFS (renameFS fs src dst) dst = some ((lookupFS fs src).getD "") := by
  unfold renameFS
  exact lookupFS_writeFS_self _ _ _

/-- A successful `download` of key `k` (present with content `v`) into a
local path (`dlLocalName k src`, i.e. the explicit path when given and
truthy, else `k`) that already holds a file: the old file is renamed to
`<path> ++ ".bak"` and the path receives the object content. -/
theorem download_backup_step (st : S3State) (fs : LocalFS) (b k v old : String)
    (src : Option String) (objs : List (String × String)) (hb : b ≠ "")
    (hobjs : findBucket st b = some objs)
    (hk : objs.find? (fun o => o.1 == k) = some (k, v))
    (hold : lookupFS fs (dlLocalName k src) = some old) :
    download st fs k b src = Except.ok
      (Resp.msg ("File " ++ k ++ " downloaded from directory " ++ b ++ "."),
       writeFS (renameFS fs (dlLocalName k src) (dlLocalName k src ++ ".bak"))
         (dlLocalName k src) v,
       [Call.headBucket b, Call.listBuckets, Call.listObjects b,
        Call.getObject b k (dlLocalName k src)]) := by
  have hex := bucketExists_of_findBucket st b objs hobjs
  have hl := listdir_of_findBucket st b objs hb hobjs
  have hmem : pyInResp k (listdir st (some b)).1 = true := by
    rw [hl]
    simp only [pyInResp]
    have hmm : k ∈ objs.map (fun o => o.1) :=
      List.mem_map.mpr ⟨(k, v), List.mem_of_find?_eq_some hk, rfl⟩
    simpa using hmm
  have hobj : get_object st b k = some v := by
    simp [get_object, hobjs, hk]
  have hpe : pathExists fs (dlLocalName k src) = true := by
    simp [pathExists, hold]
  rw [download_success st fs k b src hex hmem]
  simp only [hl, hobj, hpe, Option.getD_some, if_true]
  simp

/-! ## Claims -/

/-- C1 counterexample: dispatching `createdir` with zero argument tokens
(below its minimum of 1) returns the empty-directory-name message, not
the incorrect-parameter-number message the claim requires. -/
theorem C1_counterexample :
    dispatch ⟨[]⟩ [] "createdir" =
      Except.ok (Resp.msg "Directory name cannot be empty.",
        (⟨[]⟩ : S3State), ([] : LocalFS), ([] : List Call)) ∧
    "Directory name cannot be empty." ≠ "Incorrect number of parameters provided" := by
  constructor
  · rfl
  · decide

/-- C1 (amended): dispatching a recognized verb with fewer argument
tokens than its minimum returns an error response and issues zero
backend calls, leaving backend and filesystem untouched; for `upload`,
`download`, `delete`, `find` (minimum 2) and `deletedir` (minimum 1)
the message is 'Incorrect number of parameters provided', while for
`createdir` (minimum 1) it is 'Directory name cannot be empty.'. -/
theorem C1_below_minimum_arguments (st : S3State) (fs : LocalFS) (args : List String) :
    (args.length < 2 →
      dispatchParts st fs ("upload" :: args) =
        Except.ok (Resp.msg "Incorrect number of parameters provided", st, fs, []) ∧
      dispatchParts st fs ("download" :: args) =
        Except.ok (Resp.msg "Incorrect number of parameters provided", st, fs, []) ∧
      dispatchParts st fs ("delete" :: args) =
        Except.ok (Resp.msg "Incorrect number of parameters provided", st, fs, []) ∧
      dispatchParts st fs ("find" :: args) =
        Except.ok (Resp.msg "Incorrect number of parameters provided", st, fs, [])) ∧
    dispatchParts st fs ["deletedir"] =
      Except.ok (Resp.msg "Incorrect number of parameters provided", st, fs, []) ∧
    dispatchParts st fs ["createdir"] =
      Except.ok (Resp.msg "Directory name cannot be empty.", st, fs, []) := by
  refine ⟨fun h => ⟨?_, ?_, ?_, ?_⟩, ?_, ?_⟩
  case _ =>
    unfold dispatchParts
    have hlt : ("upload" :: args).length < 3 := by
      simp only [List.length_cons]
      omega
    simp [hlt, errorMessages]
    intro hc
    exact absurd hc (by omega)
  case _ =>
    unfold dispatchParts
    have hlt : ("download" :: args).length < 3 := by
      simp only [List.length_cons]
      omega
    simp [hlt, errorMessages]
    intro hc
    exact absurd hc (by omega)
  case _ =>
    unfold dispatchParts
    have hlt : ("delete" :: args).length < 3 := by
      simp only [List.length_cons]
      omega
    simp [hlt, errorMessages]
    intro hc
    exact absurd hc (by omega)
  case _ =>
    unfold dispatchParts
    have hlt : ("find" :: args).length < 3 := by
      simp only [List.length_cons]
      omega
    simp [hlt, errorMessages]
    intro hc
    exact absurd hc (by omega)
  case _ =>
    unfold dispatchParts
    simp [errorMessages]
  case _ =>
    unfold dispatchParts
    simp [errorMessages]

/-- Witness for C1: `upload f` (one argument) gets the
incorrect-parameter-number message on the empty backend. -/
theorem C1_below_minimum_arguments_witness :
    dispatchParts ⟨[]⟩ [] ["upload", "f"] =
      Except.ok (Resp.msg "Incorrect number of parameters provided",
        (⟨[]⟩ : S3State), ([] : LocalFS), ([] : List Call)) :=
  ((C1_below_minimum_arguments ⟨[]⟩ [] ["f"]).1 (by decide)).1

/-- C2 counterexample: a backend fault whose classification code is
'200' is not re-raised, contrary to the claim: `_get` answers `true`. -/
theorem C2_counterexample :
    interpretHeadResponse (HeadResult.fault "200") = Except.ok true ∧
    interpretHeadResponse (HeadResult.fault "200") ≠ Except.error "200" := by
  constructor
  · rfl
  · intro hc
    simp [interpretHeadResponse] at hc

/-- C2 (amended): the existence probe returns false exactly when the
backend call raises a fault coded '400'/'403'/'404' or a response
arrives with a non-200 status; it returns true when the call succeeds
with status 200 and also when a fault is coded '200'; it re-raises
unchanged any fault with any other classification code. -/
theorem C2_existence_probe_classification (r : HeadResult) :
    (interpretHeadResponse r = Except.ok false ↔
      (∃ code, r = HeadResult.fault code ∧ (code = "400" ∨ code = "403" ∨ code = "404")) ∨
      (∃ s, r = HeadResult.ok s ∧ s ≠ 200)) ∧
    (interpretHeadResponse r = Except.ok true ↔
      r = HeadResult.ok 200 ∨ r = HeadResult.fault "200") ∧
    (∀ code, r = HeadResult.fault code →
      ¬ (code = "400" ∨ code = "403" ∨ code = "404") → code ≠ "200" →
      interpretHeadResponse r = Except.error code) := by
  cases r with
  | ok s =>
      by_cases hs : s = 200
      · subst hs
        simp [interpretHeadResponse]
      · simp [interpretHeadResponse, hs]
  | fault code =>
      by_cases h4 : code = "400" ∨ code = "403" ∨ code = "404"
      · rcases h4 with h | h | h <;> subst h <;> simp [interpretHeadResponse]
      · push_neg at h4
        obtain ⟨h400, h403, h404⟩ := h4
        by_cases h200 : code = "200"
        · subst h200
          simp [interpretHeadResponse]
        · simp [interpretHeadResponse, h400, h403, h404, h200]

/-- Witness for C2: an unrecognized fault code '500' is re-raised. -/
theorem C2_existence_probe_classification_witness :
    interpretHeadResponse (HeadResult.fault "500") = Except.error "500" :=
  (C2_existence_probe_classification (HeadResult.fault "500")).2.2 "500" rfl
    (by decide) (by decide)

/-- C3 counterexample: a successful download of key `k` from bucket `b`
issues four backend calls, not at most three: the membership check made
through `listdir` issues both a list-buckets and a list-objects call. -/
theorem C3_counterexample :
    download ⟨[("b", [("k", "v")])]⟩ [] "k" "b" none =
      Except.ok (Resp.msg "File k downloaded from directory b.", [("k", "v")],
        [Call.headBucket "b", Call.listBuckets, Call.listObjects "b",
         Call.getObject "b" "k" "k"]) ∧
    ¬ ([Call.headBucket "b", Call.listBuckets, Call.listObjects "b",
         Call.getObject "b" "k" "k"].length ≤ 3) := by
  exact ⟨rfl, by decide⟩

/-- C3 (amended): every invocation of `download` issues at most four
sequential backend calls, in the relative order: container existence
check, list-containers, list-objects (the listing used for the
object-membership check), get-object; later calls are skipped when an
earlier check fails. -/
theorem C3_download_backend_calls (st : S3State) (fs : LocalFS) (k b : String)
    (src : Option String) :
    ∃ r fs2 calls dst,
      download st fs k b src = Except.ok (r, fs2, calls) ∧
      calls.length ≤ 4 ∧
      calls.Sublist [Call.headBucket b, Call.listBuckets, Call.listObjects b,
        Call.getObject b k dst] := by
  cases hex : bucketExists st b with
  | false =>
      exact ⟨_, _, _, "", download_not_exists st fs k b src hex, by simp, by simp⟩
  | true =>
      have hcalls := listdir_calls st (some b)
      simp only [Option.getD_some] at hcalls
      cases hm : pyInResp k (listdir st (some b)).1 with
      | false =>
          rcases hcalls with hc | hc
          · exact ⟨_, _, [Call.headBucket b, Call.listBuckets], "",
              by rw [download_no_object st fs k b src hex hm, hc], by simp, by simp⟩
          · exact ⟨_, _, [Call.headBucket b, Call.listBuckets, Call.listObjects b], "",
              by rw [download_no_object st fs k b src hex hm, hc], by simp, by simp⟩
      | true =>
          rcases hcalls with hc | hc
          · exact ⟨_, _, [Call.headBucket b, Call.listBuckets,
                Call.getObject b k (dlLocalName k src)], dlLocalName k src,
              by rw [download_success st fs k b src hex hm, hc]; rfl, by simp, by simp⟩
          · exact ⟨_, _, [Call.headBucket b, Call.listBuckets, Call.listObjects b,
                Call.getObject b k (dlLocalName k src)], dlLocalName k src,
              by rw [download_success st fs k b src hex hm, hc]; rfl, by simp, by simp⟩

/-- C4: for an existing container, `find` returns exactly the keys of
the backend listing that contain the pattern as a plain substring, in
the listing's relative order (a sublist of the listing); for a
non-existent container it returns the container-not-found message. -/
theorem C4_find_substring_filter (st : S3State) (pat b : String)
    (objs : List (String × String)) :
    (b ≠ "" → findBucket st b = some objs →
      find st pat b = Except.ok
        (Resp.strs ((objs.map (fun o => o.1)).filter (fun key => pyIn pat key)),
         [Call.headBucket b, Call.listBuckets, Call.listObjects b]) ∧
      ((objs.map (fun o => o.1)).filter (fun key => pyIn pat key)).Sublist
        (objs.map (fun o => o.1))) ∧
    (bucketExists st b = false →
      find st pat b = Except.ok (Resp.msg "Directory does not exist.", [Call.headBucket b])) := by
  constructor
  · intro hb h
    refine ⟨?_, List.filter_sublist _⟩
    have hex := bucketExists_of_findBucket st b objs h
    have hl := listdir_of_findBucket st b objs hb h
    simp only [find, S3get_eq, hex, hl, respIter]
  · intro hex
    simp only [find, S3get_eq, hex, errorMessages]
    simp

/-- Witness for C4: `find txt bucket1` keeps exactly the keys containing
"txt", in listing order. -/
theorem C4_find_substring_filter_witness :
    find ⟨[("bucket1", [("a.txt", "1"), ("b.py", "2"), ("notes.txt", "3")])]⟩ "txt" "bucket1" =
      Except.ok (Resp.strs ["a.txt", "notes.txt"],
        [Call.headBucket "bucket1", Call.listBuckets, Call.listObjects "bucket1"]) := by
  rw [((C4_find_substring_filter ⟨[("bucket1", [("a.txt", "1"), ("b.py", "2"), ("notes.txt", "3")])]⟩
        "txt" "bucket1" [("a.txt", "1"), ("b.py", "2"), ("notes.txt", "3")]).1
      (by decide) rfl).1]
  rfl

/-- C5: `deletedir` on an existing container with a non-empty listing
returns 'Directory is not empty.' and leaves the backend unchanged with
no delete-container call in the trace; with an empty listing it issues
the delete-container call, returns 'Directory X deleted.', and the
container no longer exists. -/
theorem C5_deletedir_guard (st : S3State) (b : String) (objs : List (String × String))
    (hb : b ≠ "") (h : findBucket st b = some objs) :
    (objs ≠ [] →
      deletedir st b = Except.ok (Resp.msg "Directory is not empty.", st,
        [Call.headBucket b, Call.listBuckets, Call.listObjects b]) ∧
      bucketExists st b = true) ∧
    (objs = [] →
      deletedir st b = Except.ok (Resp.msg ("Directory " ++ b ++ " deleted."),
        delete_bucket st b,
        [Call.headBucket b, Call.listBuckets, Call.listObjects b, Call.deleteBucket b]) ∧
      bucketExists (delete_bucket st b) b = false) := by
  have hex := bucketExists_of_findBucket st b objs h
  have hl := listdir_of_findBucket st b objs hb h
  constructor
  · intro hne
    refine ⟨?_, hex⟩
    have hpos : pyLen (Resp.strs (objs.map (fun o => o.1))) > 0 := by
      simp only [pyLen, gt_iff_lt, List.length_pos]
      simpa using hne
    simp only [deletedir, S3get_eq, hex, hl]
    rw [if_pos hpos]
    simp [errorMessages]
  · intro he
    subst he
    refine ⟨?_, bucketExists_delete_bucket st b⟩
    simp only [deletedir, S3get_eq, hex, hl]
    simp [pyLen]

/-- Witness for C5: a one-object bucket refuses deletion; an empty
bucket is deleted. -/
theorem C5_deletedir_guard_witness :
    deletedir ⟨[("d", [("k", "v")])]⟩ "d" =
      Except.ok (Resp.msg "Directory is not empty.", (⟨[("d", [("k", "v")])]⟩ : S3State),
        [Call.headBucket "d", Call.listBuckets, Call.listObjects "d"]) ∧
    deletedir ⟨[("e", [])]⟩ "e" =
      Except.ok (Resp.msg ("Directory " ++ "e" ++ " deleted."), delete_bucket ⟨[("e", [])]⟩ "e",
        [Call.headBucket "e", Call.listBuckets, Call.listObjects "e", Call.deleteBucket "e"]) :=
  ⟨((C5_deletedir_guard ⟨[("d", [("k", "v")])]⟩ "d" [("k", "v")] (by decide) rfl).1
      (by decide)).1,
   ((C5_deletedir_guard ⟨[("e", [])]⟩ "e" [] (by decide) rfl).2 rfl).1⟩

/-- C6: downloading key `k` (content `v`) from an existing container
into its local path `P = dlLocalName k src` — the explicit
`source_file_name` when given and truthy, else `k` — where a file at
`P` already holds content `old`, leaves `old` in `P.bak` and `v` in
`P`; a second consecutive download overwrites the prior `.bak` with
the freshly downloaded content (single-generation backup). -/
theorem C6_download_backup (st : S3State) (fs : LocalFS) (b k v old : String)
    (src : Option String) (objs : List (String × String)) (hb : b ≠ "")
    (hobjs : findBucket st b = some objs)
    (hk : objs.find? (fun o => o.1 == k) = some (k, v))
    (hold : lookupFS fs (dlLocalName k src) = some old) :
    ∃ r fs2 calls,
      download st fs k b src = Except.ok (r, fs2, calls) ∧
      lookupFS fs2 (dlLocalName k src ++ ".bak") = some old ∧
      lookupFS fs2 (dlLocalName k src) = some v ∧
      ∃ r2 fs3 calls2,
        download st fs2 k b src = Except.ok (r2, fs3, calls2) ∧
        lookupFS fs3 (dlLocalName k src ++ ".bak") = some v ∧
        lookupFS fs3 (dlLocalName k src) = some v := by
  have h1 := download_backup_step st fs b k v old src objs hb hobjs hk hold
  have hk2 : lookupFS
      (writeFS (renameFS fs (dlLocalName k src) (dlLocalName k src ++ ".bak"))
        (dlLocalName k src) v) (dlLocalName k src) = some v :=
    lookupFS_writeFS_self _ _ _
  have hbak2 : lookupFS
      (writeFS (renameFS fs (dlLocalName k src) (dlLocalName k src ++ ".bak"))
        (dlLocalName k src) v) (dlLocalName k src ++ ".bak") = some old := by
    rw [lookupFS_writeFS_ne _ _ _ _ (append_bak_ne _), lookupFS_renameFS_dst, hold]
    rfl
  have h2 := download_backup_step st
    (writeFS (renameFS fs (dlLocalName k src) (dlLocalName k src ++ ".bak"))
      (dlLocalName k src) v)
    b k v v src objs hb hobjs hk hk2
  refine ⟨_, _, _, h1, hbak2, hk2, _, _, _, h2, ?_, lookupFS_writeFS_self _ _ _⟩
  rw [lookupFS_writeFS_ne _ _ _ _ (append_bak_ne _), lookupFS_renameFS_dst, hk2]
  rfl

/-- Witness for C6: bucket `b` holds `k ↦ v`; the download names the
explicit local path `local.txt` (distinct from the key), which holds
`old` beforehand, and the backup chain behaves as claimed. -/
theorem C6_download_backup_witness :
    ∃ r fs2 calls,
      download ⟨[("b", [("k", "v")])]⟩ [("local.txt", "old")] "k" "b" (some "local.txt") =
        Except.ok (r, fs2, calls) ∧
      lookupFS fs2 (dlLocalName "k" (some "local.txt") ++ ".bak") = some "old" ∧
      lookupFS fs2 (dlLocalName "k" (some "local.txt")) = some "v" ∧
      ∃ r2 fs3 calls2,
        download ⟨[("b", [("k", "v")])]⟩ fs2 "k" "b" (some "local.txt") =
          Except.ok (r2, fs3, calls2) ∧
        lookupFS fs3 (dlLocalName "k" (some "local.txt") ++ ".bak") = some "v" ∧
        lookupFS fs3 (dlLocalName "k" (some "local.txt")) = some "v" :=
  C6_download_backup ⟨[("b", [("k", "v")])]⟩ [("local.txt", "old")] "b" "k" "v" "old"
    (some "local.txt") [("k", "v")] (by decide) rfl rfl rfl

/-- C7: an upload whose local source path does not exist returns the
'Source file cannot be found.' message with no backend call (whatever
the optional destination key); when the source exists, the container
exists and no destination key is given, the put-object call and the
stored key both use the source path as the key. -/
theorem C7_upload_source_checks (st : S3State) (fs : LocalFS) (src b : String) :
    (pathExists fs src = false →
      upload st fs src b none =
        Except.ok (Resp.msg "Source file cannot be found.", st, []) ∧
      ∀ d, upload st fs src b (some d) =
        Except.ok (Resp.msg "Source file cannot be found.", st, [])) ∧
    (pathExists fs src = true → bucketExists st b = true →
      upload st fs src b none = Except.ok
        (Resp.msg ("File " ++ src ++ " uploaded to directory " ++ b ++ "."),
         put_object st b src ((lookupFS fs src).getD ""),
         [Call.headBucket b, Call.putObject src b src])) := by
  constructor
  · intro hne
    constructor
    · simp only [upload, hne]
      simp [errorMessages]
    · intro d
      simp only [upload, hne]
      simp [errorMessages]
  · intro hpe hex
    simp only [upload, S3get_eq, hpe, hex]
    simp

/-- Witness for C7: a missing local file aborts the upload with no
backend call; an existing file uploads under its own path as key. -/
theorem C7_upload_source_checks_witness :
    upload ⟨[]⟩ [] "missing.txt" "bucket" none =
      Except.ok (Resp.msg "Source file cannot be found.", (⟨[]⟩ : S3State), []) ∧
    upload ⟨[("bucket", [])]⟩ [("f.txt", "data")] "f.txt" "bucket" none =
      Except.ok (Resp.msg ("File " ++ "f.txt" ++ " uploaded to directory " ++ "bucket" ++ "."),
        put_object ⟨[("bucket", [])]⟩ "bucket" "f.txt"
          ((lookupFS [("f.txt", "data")] "f.txt").getD ""),
        [Call.headBucket "bucket", Call.putObject "f.txt" "bucket" "f.txt"]) :=
  ⟨((C7_upload_source_checks ⟨[]⟩ [] "missing.txt" "bucket").1 rfl).1,
   (C7_upload_source_checks ⟨[("bucket", [])]⟩ [("f.txt", "data")] "f.txt" "bucket").2 rfl rfl⟩

/-- C8: for a non-empty name of a container that does not exist,
`createdir` issues the create-container call, returns 'Directory X
created.', and the container then exists; a second `createdir` returns
'Directory already exists.' after only the existence probe, with no
second create call; `createdir` with an empty name returns 'Directory
name cannot be empty.' with no backend call. -/
theorem C8_createdir_lifecycle (st : S3State) (b : String) (hb : b ≠ "")
    (h : bucketExists st b = false) :
    createdir st b = Except.ok (Resp.msg ("Directory " ++ b ++ " created."),
      create_bucket st b, [Call.headBucket b, Call.createBucket b]) ∧
    bucketExists (create_bucket st b) b = true ∧
    createdir (create_bucket st b) b = Except.ok (Resp.msg "Directory already exists.",
      create_bucket st b, [Call.headBucket b]) ∧
    ∀ st2 : S3State, createdir st2 "" =
      Except.ok (Resp.msg "Directory name cannot be empty.", st2, []) := by
  refine ⟨?_, bucketExists_create_bucket st b, ?_, ?_⟩
  · simp only [createdir, S3get_eq, h, if_neg hb]
  · simp only [createdir, S3get_eq, bucketExists_create_bucket st b, if_neg hb, errorMessages]
    simp
  · intro st2
    simp [createdir, errorMessages]

/-- Witness for C8: creating `bucket1` on an empty backend, then
creating it again. -/
theorem C8_createdir_lifecycle_witness :
    createdir ⟨[]⟩ "bucket1" = Except.ok (Resp.msg ("Directory " ++ "bucket1" ++ " created."),
      create_bucket ⟨[]⟩ "bucket1", [Call.headBucket "bucket1", Call.createBucket "bucket1"]) ∧
    createdir (create_bucket ⟨[]⟩ "bucket1") "bucket1" =
      Except.ok (Resp.msg "Directory already exists.",
        create_bucket ⟨[]⟩ "bucket1", [Call.headBucket "bucket1"]) :=
  ⟨(C8_createdir_lifecycle ⟨[]⟩ "bucket1" (by decide) rfl).1,
   (C8_createdir_lifecycle ⟨[]⟩ "bucket1" (by decide) rfl).2.2.1⟩

/-- C9: `listdir` on an existing container whose listing reports no
contents returns the empty list, never an error message. -/
theorem C9_listdir_empty_contents (st : S3State) (b : String) (hb : b ≠ "")
    (h : findBucket st b = some []) :
    listdir st (some b) = (Resp.strs [], [Call.listBuckets, Call.listObjects b]) ∧
    ∀ s, (listdir st (some b)).1 ≠ Resp.msg s := by
  have h1 := listdir_of_findBucket st b [] hb h
  simp only [List.map_nil] at h1
  refine ⟨h1, ?_⟩
  intro s
  rw [h1]
  simp

/-- Witness for C9: an existing empty bucket lists as the empty list. -/
theorem C9_listdir_empty_contents_witness :
    listdir ⟨[("bucket1", [])]⟩ (some "bucket1") =
      (Resp.strs [], [Call.listBuckets, Call.listObjects "bucket1"]) :=
  (C9_listdir_empty_contents ⟨[("bucket1", [])]⟩ "bucket1" (by decide) rfl).1

/-- C10: a recognized verb followed by more tokens than the handler's
parameter count, such as `delete key bucket extra`, makes `dispatch`
raise a `TypeError` (all trailing tokens are forwarded positionally)
instead of returning a response. -/
theorem C10_too_many_arguments_raises (st : S3State) (fs : LocalFS) :
    dispatch st fs "delete key bucket extra" = Except.error PyException.typeError := by
  rfl

end S3
